import Mathlib

/-!
Verification development for the darkside-mcp server (server/index.js).

The JavaScript source is shallowly embedded: pure helpers become Lean
functions; filesystem state becomes an explicit association list from
path to content; a spawned child process is an external event source,
modelled by a `SpawnBehavior` value (or a `spawner` function from the
spawn arguments to such a value) describing how the process would
behave; thrown JavaScript errors become `Except` errors.  Path
normalization (Node `path.normalize`) is kept abstract as a function
parameter `norm`, since every property of interest is stated about the
normalized string.  Strings are compared by characters; the affected
paths and code snippets are ASCII, where JavaScript UTF-16 code units,
Lean characters and UTF-8 bytes agree.
-/

/-- Process-wide configuration, read once at startup (lines 24-32 of
server/index.js).  `allowedDrives` models ALLOWED_DRIVES.split(','),
`allowedPaths` models ALLOWED_PATHS.split(',').filter(p => p). -/
structure Config where
  allowedDrives : List String
  allowedPaths : List String
  pythonPath : String
  pythonMaxTimeout : Nat
  powershellPath : String
  powershellMaxTimeout : Nat
deriving Repr

/-- The default configuration values of the source. -/
def defaultConfig : Config :=
  { allowedDrives := ["C", "F"]
    allowedPaths := []
    pythonPath := "python"
    pythonMaxTimeout := 300000
    powershellPath := "powershell.exe"
    powershellMaxTimeout := 600000 }

/-- JavaScript String.charAt: the one-character string at index i, or the
empty string when out of range. -/
def charAt (s : String) (i : Nat) : String :=
  match s.data.get? i with
  | some c => String.singleton c
  | none => ""

/-- JavaScript String.toUpperCase, restricted to the ASCII range used by
drive letters. -/
def strToUpper (s : String) : String := String.mk (s.data.map Char.toUpper)

/-- Whether the first list is a prefix of the second, by characters. -/
def listPrefix : List Char → List Char → Bool
  | [], _ => true
  | _ :: _, [] => false
  | c :: cs, d :: ds => c == d && listPrefix cs ds

/-- JavaScript String.startsWith (equivalently Node prefix matching on the
normalized string), written over character lists so that it evaluates by
reduction. -/
def jsStartsWith (s pre : String) : Bool := listPrefix pre.data s.data

/-- The structured content of the access-denied error thrown at line 69:
the attempted (normalized) path together with the configured rule set
that the error message interpolates. -/
structure AccessDenied where
  attempted : String
  drives : List String
  paths : List String
deriving Repr, DecidableEq

/-- Errors thrown by the embedded operations: the structured access-denied
error, or a plain Error(message) as the source throws elsewhere. -/
inductive DsError where
  | accessDenied (e : AccessDenied)
  | err (msg : String)
deriving Repr, DecidableEq

/-- validatePath after normalization (lines 40-70).  The source returns on
the first successful check; a `/mnt/` path whose drive letter is not
allowed falls through to the remaining checks, which the `&&` in the
first condition reproduces. -/
def validateNormalized (cfg : Config) (normalized : String) : Except DsError String :=
  if jsStartsWith normalized "/mnt/" && cfg.allowedDrives.contains (strToUpper (charAt normalized 5)) then
    Except.ok normalized
  else if jsStartsWith normalized "/home/" || jsStartsWith normalized "/tmp/" then
    Except.ok normalized
  else if cfg.allowedPaths.any (fun a => jsStartsWith normalized a) then
    Except.ok normalized
  else if cfg.allowedDrives.contains (strToUpper (charAt normalized 0)) then
    Except.ok normalized
  else
    Except.error (DsError.accessDenied
      { attempted := normalized, drives := cfg.allowedDrives, paths := cfg.allowedPaths })

/-- validatePath (lines 40-70): normalize, then check the allow rules.
`norm` stands for Node path.normalize, kept abstract. -/
def validatePath (cfg : Config) (norm : String → String) (filePath : String) : Except DsError String :=
  validateNormalized cfg (norm filePath)

/-- The allow condition exactly as the claim words it: the normalized path
starts with an always-open convention location (/home/, /tmp/, or /mnt/
followed by an allowed drive letter), or starts with a configured allowed
path prefix, or its leading character, uppercased, is one of the
configured allowed drive letters.  Written from the claim, to be compared
against `validateNormalized`. -/
def specAllowed (cfg : Config) (n : String) : Bool :=
  (jsStartsWith n "/home/" || jsStartsWith n "/tmp/"
     || (jsStartsWith n "/mnt/" && cfg.allowedDrives.contains (strToUpper (charAt n 5))))
  || cfg.allowedPaths.any (fun a => jsStartsWith n a)
  || cfg.allowedDrives.contains (strToUpper (charAt n 0))

/-- C1: for every path, validatePath succeeds with the normalized path
exactly when the claim's allow condition holds of the normalized path,
and otherwise fails with an access-denied error carrying the attempted
path and the configured rule set.  The function is a pure function of
its arguments: deterministic and free of filesystem access. -/
theorem validatePath_characterization (cfg : Config) (norm : String → String) (p : String) :
    validatePath cfg norm p =
      (if specAllowed cfg (norm p) then Except.ok (norm p)
       else Except.error (DsError.accessDenied
         { attempted := norm p, drives := cfg.allowedDrives, paths := cfg.allowedPaths })) := by
  have h : ∀ (b1 b2 b3 b4 b5 : Bool) (x e : Except DsError String),
      (if b1 then x else if b2 || b3 then x else if b4 then x else if b5 then x else e)
        = if (b2 || b3 || b1) || b4 || b5 then x else e := by
    intro b1 b2 b3 b4 b5 x e
    cases b1 <;> cases b2 <;> cases b3 <;> cases b4 <;> cases b5 <;> simp
  unfold validatePath validateNormalized specAllowed
  exact h _ _ _ _ _ _ _

/-! ## Filesystem model

The filesystem visible to the file operations is a finite map from path
to file content, represented as an association list whose first binding
for a key wins; `fsSet` keeps it duplicate-free.  `fs.copyFile` and
`fs.unlink` reject a missing source the way Node does (ENOENT);
`fs.writeFile` creates or overwrites unconditionally. -/

def FS := List (String × String)

/-- Whether a path currently has a file (fsSync.existsSync / fs.stat). -/
def fsGet (fs : FS) (p : String) : Option String :=
  (fs.find? (fun e => e.1 == p)).map (fun e => e.2)

/-- fs.writeFile: create or overwrite. -/
def fsSet (fs : FS) (p c : String) : FS :=
  (p, c) :: fs.filter (fun e => !(e.1 == p))

/-- Removal of a binding (the state change of a successful unlink). -/
def fsDel (fs : FS) (p : String) : FS :=
  fs.filter (fun e => !(e.1 == p))

/-- fs.copyFile: fails with ENOENT when the source is missing. -/
def fsCopy (fs : FS) (src dst : String) : Except DsError FS :=
  match fsGet fs src with
  | some c => Except.ok (fsSet fs dst c)
  | none => Except.error (DsError.err
      ("ENOENT: no such file or directory, copyfile " ++ src ++ " -> " ++ dst))

/-- fs.unlink: fails with ENOENT when the target is missing. -/
def fsUnlink (fs : FS) (p : String) : Except DsError FS :=
  match fsGet fs p with
  | some _ => Except.ok (fsDel fs p)
  | none => Except.error (DsError.err
      ("ENOENT: no such file or directory, unlink " ++ p))

theorem fsGet_filter_ne (fs : FS) (p q : String) (h : q ≠ p) :
    fsGet (fs.filter (fun e => !(e.1 == p))) q = fsGet fs q := by
  induction fs with
  | nil => rfl
  | cons kv rest ih =>
    by_cases hk : kv.1 = p
    · have h1 : (kv.1 == p) = true := beq_iff_eq.mpr hk
      have h2 : (kv.1 == q) = false := by
        rw [beq_eq_false_iff_ne]
        intro hq
        exact h (hq ▸ hk)
      simp [fsGet, List.filter, List.find?, h1, h2] at ih ⊢
      exact ih
    · have h1 : (kv.1 == p) = false := by rw [beq_eq_false_iff_ne]; exact hk
      by_cases hq : kv.1 = q
      · have h2 : (kv.1 == q) = true := beq_iff_eq.mpr hq
        simp [fsGet, List.filter, List.find?, h1, h2]
      · have h2 : (kv.1 == q) = false := by rw [beq_eq_false_iff_ne]; exact hq
        simp [fsGet, List.filter, List.find?, h1, h2] at ih ⊢
        exact ih

theorem fsGet_filter_self (fs : FS) (p : String) :
    fsGet (fs.filter (fun e => !(e.1 == p))) p = none := by
  induction fs with
  | nil => rfl
  | cons kv rest ih =>
    by_cases hk : kv.1 = p
    · have h1 : (kv.1 == p) = true := beq_iff_eq.mpr hk
      simp [List.filter, h1]
      exact ih
    · have h1 : (kv.1 == p) = false := by rw [beq_eq_false_iff_ne]; exact hk
      simp [fsGet, List.filter, List.find?, h1] at ih ⊢

theorem fsGet_set_self (fs : FS) (p c : String) : fsGet (fsSet fs p c) p = some c := by
  simp [fsGet, fsSet, List.find?]

theorem fsGet_set_ne (fs : FS) (p c q : String) (h : q ≠ p) :
    fsGet (fsSet fs p c) q = fsGet fs q := by
  have h1 : (p == q) = false := by
    rw [beq_eq_false_iff_ne]
    intro hq
    exact h hq.symm
  simp only [fsGet, fsSet, List.find?, h1]
  exact fsGet_filter_ne fs p q h

theorem fsGet_del_self (fs : FS) (p : String) : fsGet (fsDel fs p) p = none :=
  fsGet_filter_self fs p

theorem fsGet_del_ne (fs : FS) (p q : String) (h : q ≠ p) :
    fsGet (fsDel fs p) q = fsGet fs q :=
  fsGet_filter_ne fs p q h

/-- A string extended by a nonempty tail differs from the original:
used to separate a backup path from the path it protects. -/
theorem append_append_ne (v a t : String) (ha : a.length ≠ 0) : v ++ a ++ t ≠ v := by
  intro h
  have h2 := congrArg String.length h
  simp [String.length_append] at h2
  omega


/-! ## write_file and delete_file (lines 140-167 and 254-279) -/

/-- The result object of writeFile. -/
structure WriteResult where
  success : Bool
  path : String
  size : Nat
  backup_created : Bool
deriving Repr, DecidableEq

/-- The result object of deleteFile. -/
structure DeleteResult where
  success : Bool
  path : String
  backup_path : Option String
deriving Repr, DecidableEq

/-- The backup step of writeFile (lines 146-150): copy the target to a
timestamped sibling when backups are requested and the target exists. -/
def writeBackupStep (fs : FS) (now : Nat) (validated : String) (createBackup : Bool) :
    Except DsError FS :=
  if createBackup && (fsGet fs validated).isSome then
    fsCopy fs validated (validated ++ ".backup_" ++ toString now)
  else Except.ok fs

/-- writeFile after path validation: the backup step runs to completion
before the write mutates the target (lines 146-162).  The reported
backup_created re-tests existsSync after the write, exactly as line 161
of the source does. -/
def writeFileValidated (fs : FS) (now : Nat) (validated content : String)
    (createBackup : Bool) : Except DsError (WriteResult × FS) :=
  match writeBackupStep fs now validated createBackup with
  | Except.error e => Except.error e
  | Except.ok fs1 =>
    let fs2 := fsSet fs1 validated content
    Except.ok
      ({ success := true, path := validated, size := content.utf8ByteSize,
         backup_created := createBackup && (fsGet fs2 validated).isSome }, fs2)

/-- writeFile (lines 140-167): validate, back up, write, stat, report.
`now` models Date.now(). -/
def writeFile (cfg : Config) (norm : String → String) (fs : FS) (now : Nat)
    (filePath content : String) (createBackup : Bool) :
    Except DsError (WriteResult × FS) :=
  match validatePath cfg norm filePath with
  | Except.error e => Except.error e
  | Except.ok validated => writeFileValidated fs now validated content createBackup

/-- The backup step of deleteFile (lines 259-264): unlike writeFile, the
source copies unconditionally when backups are requested, with no
existence check before fs.copyFile. -/
def deleteBackupStep (fs : FS) (now : Nat) (validated : String) (createBackup : Bool) :
    Except DsError FS :=
  if createBackup then fsCopy fs validated (validated ++ ".deleted_" ++ toString now)
  else Except.ok fs

/-- deleteFile after path validation (lines 259-274). -/
def deleteFileValidated (fs : FS) (now : Nat) (validated : String)
    (createBackup : Bool) : Except DsError (DeleteResult × FS) :=
  match deleteBackupStep fs now validated createBackup with
  | Except.error e => Except.error e
  | Except.ok fs1 =>
    match fsUnlink fs1 validated with
    | Except.error e => Except.error e
    | Except.ok fs2 =>
      Except.ok
        ({ success := true, path := validated,
           backup_path := if createBackup then some (validated ++ ".deleted_" ++ toString now)
                          else none }, fs2)

/-- deleteFile (lines 254-279): validate, back up, unlink, report. -/
def deleteFile (cfg : Config) (norm : String → String) (fs : FS) (now : Nat)
    (filePath : String) (createBackup : Bool) :
    Except DsError (DeleteResult × FS) :=
  match validatePath cfg norm filePath with
  | Except.error e => Except.error e
  | Except.ok validated => deleteFileValidated fs now validated createBackup

theorem writeFile_eq_validated (cfg : Config) (norm : String → String) (fs : FS)
    (now : Nat) (p content : String) (cb : Bool) (v : String)
    (hv : validatePath cfg norm p = Except.ok v) :
    writeFile cfg norm fs now p content cb = writeFileValidated fs now v content cb := by
  unfold writeFile
  rw [hv]

theorem writeFileValidated_eq (fs : FS) (now : Nat) (v content : String) (cb : Bool)
    (fs1 : FS) (hb : writeBackupStep fs now v cb = Except.ok fs1) :
    writeFileValidated fs now v content cb =
      Except.ok
        ({ success := true, path := v, size := content.utf8ByteSize,
           backup_created := cb && (fsGet (fsSet fs1 v content) v).isSome },
         fsSet fs1 v content) := by
  unfold writeFileValidated
  rw [hb]

theorem deleteFile_eq_validated (cfg : Config) (norm : String → String) (fs : FS)
    (now : Nat) (p : String) (cb : Bool) (v : String)
    (hv : validatePath cfg norm p = Except.ok v) :
    deleteFile cfg norm fs now p cb = deleteFileValidated fs now v cb := by
  unfold deleteFile
  rw [hv]

theorem deleteFileValidated_eq (fs : FS) (now : Nat) (v : String) (cb : Bool)
    (fs1 fs2 : FS) (hb : deleteBackupStep fs now v cb = Except.ok fs1)
    (hu : fsUnlink fs1 v = Except.ok fs2) :
    deleteFileValidated fs now v cb =
      Except.ok
        ({ success := true, path := v,
           backup_path := if cb then some (v ++ ".deleted_" ++ toString now) else none },
         fs2) := by
  unfold deleteFileValidated
  rw [hb]
  simp only [hu]

/-- C2: a backup-enabled write_file or delete_file on an existing file
completes the backup copy (writeBackupStep / deleteBackupStep) before the
mutating step: after the call a backup file exists at a path distinct
from the target, and its content is the content the target had before the
call. -/
theorem backup_before_mutate (cfg : Config) (norm : String → String) (fs : FS)
    (now : Nat) (p content v c : String)
    (hv : validatePath cfg norm p = Except.ok v)
    (hex : fsGet fs v = some c) :
    (∃ res fsW, writeFile cfg norm fs now p content true = Except.ok (res, fsW) ∧
       v ++ ".backup_" ++ toString now ≠ v ∧
       fsGet fsW (v ++ ".backup_" ++ toString now) = some c) ∧
    (∃ res fsD, deleteFile cfg norm fs now p true = Except.ok (res, fsD) ∧
       v ++ ".deleted_" ++ toString now ≠ v ∧
       fsGet fsD (v ++ ".deleted_" ++ toString now) = some c ∧
       res.backup_path = some (v ++ ".deleted_" ++ toString now) ∧
       fsGet fsD v = none) := by
  have hbw : v ++ ".backup_" ++ toString now ≠ v :=
    append_append_ne v ".backup_" (toString now) (by decide)
  have hbd : v ++ ".deleted_" ++ toString now ≠ v :=
    append_append_ne v ".deleted_" (toString now) (by decide)
  have hbd2 : v ≠ v ++ ".deleted_" ++ toString now := fun h => hbd h.symm
  constructor
  · have e1 : writeBackupStep fs now v true =
        Except.ok (fsSet fs (v ++ ".backup_" ++ toString now) c) := by
      unfold writeBackupStep fsCopy
      rw [hex]
      rfl
    have e2 := (writeFile_eq_validated cfg norm fs now p content true v hv).trans
      (writeFileValidated_eq fs now v content true _ e1)
    refine ⟨_, _, e2, hbw, ?_⟩
    rw [fsGet_set_ne _ _ _ _ hbw, fsGet_set_self]
  · have e1 : deleteBackupStep fs now v true =
        Except.ok (fsSet fs (v ++ ".deleted_" ++ toString now) c) := by
      unfold deleteBackupStep fsCopy
      rw [hex]
      rfl
    have e3 : fsUnlink (fsSet fs (v ++ ".deleted_" ++ toString now) c) v =
        Except.ok (fsDel (fsSet fs (v ++ ".deleted_" ++ toString now) c) v) := by
      unfold fsUnlink
      rw [fsGet_set_ne _ _ _ _ hbd2, hex]
    have e2 := (deleteFile_eq_validated cfg norm fs now p true v hv).trans
      (deleteFileValidated_eq fs now v true _ _ e1 e3)
    refine ⟨_, _, e2, hbd, ?_, rfl, ?_⟩
    · rw [fsGet_del_ne _ _ _ hbd, fsGet_set_self]
    · exact fsGet_del_self _ _

/-- Witness for C2 at a concrete policy, filesystem and path. -/
theorem backup_before_mutate_witness :
    (∃ res fsW, writeFile defaultConfig id [("/tmp/a.txt", "old")] 7 "/tmp/a.txt" "new" true
        = Except.ok (res, fsW) ∧
       "/tmp/a.txt" ++ ".backup_" ++ toString 7 ≠ "/tmp/a.txt" ∧
       fsGet fsW ("/tmp/a.txt" ++ ".backup_" ++ toString 7) = some "old") ∧
    (∃ res fsD, deleteFile defaultConfig id [("/tmp/a.txt", "old")] 7 "/tmp/a.txt" true
        = Except.ok (res, fsD) ∧
       "/tmp/a.txt" ++ ".deleted_" ++ toString 7 ≠ "/tmp/a.txt" ∧
       fsGet fsD ("/tmp/a.txt" ++ ".deleted_" ++ toString 7) = some "old" ∧
       res.backup_path = some ("/tmp/a.txt" ++ ".deleted_" ++ toString 7) ∧
       fsGet fsD "/tmp/a.txt" = none) :=
  backup_before_mutate defaultConfig id [("/tmp/a.txt", "old")] 7 "/tmp/a.txt" "new"
    "/tmp/a.txt" "old" (by rfl) (by rfl)

/-- Counterexample to C3 as stated: with backup enabled, deleteFile on a
path that does not exist fails in the backup copy step itself (the source
has no existence check before fs.copyFile in deleteFile), contradicting
the claim that the backup step of delete_file is a failure-free no-op for
missing targets. -/
theorem deleteFile_missing_backup_step_fails :
    deleteFile defaultConfig id [] 0 "/tmp/ghost.txt" true =
      Except.error (DsError.err
        "ENOENT: no such file or directory, copyfile /tmp/ghost.txt -> /tmp/ghost.txt.deleted_0")
    ∧ deleteBackupStep [] 0 "/tmp/ghost.txt" true =
      Except.error (DsError.err
        "ENOENT: no such file or directory, copyfile /tmp/ghost.txt -> /tmp/ghost.txt.deleted_0") := by
  constructor <;> rfl

/-- C3 amended: for write_file on a non-existing target the backup step is
skipped and succeeds, the call succeeds, and no file other than the
target is touched (in particular no backup file is created); for
delete_file on a non-existing target the backup copy step itself fails
with a file-not-found error. -/
theorem backup_missing_target_behavior (cfg : Config) (norm : String → String)
    (fs : FS) (now : Nat) (p content v : String)
    (hv : validatePath cfg norm p = Except.ok v)
    (hne : fsGet fs v = none) :
    (writeBackupStep fs now v true = Except.ok fs ∧
     ∃ res fsW, writeFile cfg norm fs now p content true = Except.ok (res, fsW) ∧
       (∀ q, q ≠ v → fsGet fsW q = fsGet fs q)) ∧
    deleteFile cfg norm fs now p true =
      Except.error (DsError.err ("ENOENT: no such file or directory, copyfile "
        ++ v ++ " -> " ++ (v ++ ".deleted_" ++ toString now))) := by
  have hb : writeBackupStep fs now v true = Except.ok fs := by
    unfold writeBackupStep
    rw [hne]
    rfl
  constructor
  · refine ⟨hb, _, _, (writeFile_eq_validated cfg norm fs now p content true v hv).trans
      (writeFileValidated_eq fs now v content true fs hb), ?_⟩
    intro q hq
    exact fsGet_set_ne _ _ _ _ hq
  · have hd : deleteBackupStep fs now v true =
        Except.error (DsError.err ("ENOENT: no such file or directory, copyfile "
          ++ v ++ " -> " ++ (v ++ ".deleted_" ++ toString now))) := by
      unfold deleteBackupStep fsCopy
      rw [hne]
      rfl
    rw [deleteFile_eq_validated cfg norm fs now p true v hv]
    unfold deleteFileValidated
    rw [hd]

/-- Witness for the amended C3 at a concrete policy and path. -/
theorem backup_missing_target_behavior_witness :
    (writeBackupStep [] 3 "/tmp/nu.txt" true = Except.ok [] ∧
     ∃ res fsW, writeFile defaultConfig id [] 3 "/tmp/nu.txt" "hey" true = Except.ok (res, fsW) ∧
       (∀ q, q ≠ "/tmp/nu.txt" → fsGet fsW q = fsGet ([] : FS) q)) ∧
    deleteFile defaultConfig id [] 3 "/tmp/nu.txt" true =
      Except.error (DsError.err ("ENOENT: no such file or directory, copyfile "
        ++ "/tmp/nu.txt" ++ " -> " ++ ("/tmp/nu.txt" ++ ".deleted_" ++ toString 3))) :=
  backup_missing_target_behavior defaultConfig id [] 3 "/tmp/nu.txt" "hey" "/tmp/nu.txt"
    (by rfl) (by rfl)

/-- C4 (bug evaluation): writeFile to a path with no existing file, with
default options (backup enabled), returns size 2 for the two-byte content
but reports backup_created = true even though the resulting filesystem
contains only the written file and no backup: the source re-tests
existsSync after the write (line 161), which is always true at that
point.  The claim (and spec scenario A) expects backup_created = false. -/
theorem writeFile_new_file_reports_backup_created :
    writeFile defaultConfig id [] 0 "/tmp/new.txt" "hi" true =
      Except.ok ({ success := true, path := "/tmp/new.txt", size := 2, backup_created := true },
        [("/tmp/new.txt", "hi")]) := by
  rfl

/-! ## Process execution model

`spawn` and its callback events are embedded by treating the child
process as an external event source.  A `SpawnCall` is what the source
hands to spawn (executable, argv, working directory, environment); a
`SpawnBehavior` says what the spawned process would do: fail to spawn
(the error event), or run, producing output and an exit code.  The
timeout timer armed at launch fires iff the process would outlive the
clamped timeout, in which case the source's `killed` flag is set and the
close handler reports the timeout-specific result; otherwise the timer is
disarmed on close and the normal result is built.  `resolveSpawn` is that
event logic (lines 352-413 for Python, 619-677 and 723-784 for
PowerShell, identical but for the message). -/

structure SpawnCall where
  exe : String
  args : List String
  cwd : String
  env : List (String × String)

inductive SpawnBehavior where
  | spawnErr (msg outBuf errBuf : String) (errTime : Nat)
  | proc (runtime closeTime : Nat) (exitCode : Option Int) (outFull errFull outPart errPart : String)

/-- The common fields of every execution result object. -/
structure ExecCore where
  success : Bool
  exit_code : Option Int
  stdout : String
  stderr : String
  duration_ms : Nat
  error : Option String
deriving Repr, DecidableEq

/-- Resolution of the single promise: exactly one of spawn-error,
timeout-kill or normal exit produces the result.  `st` is the clamped
timeout; `exitCode` is none when the OS reports a signal instead of a
code, and `== some 0` is the source's `code === 0`. -/
def resolveSpawn (b : SpawnBehavior) (st : Nat) (killMsg : String) : ExecCore :=
  match b with
  | SpawnBehavior.spawnErr msg outBuf errBuf errTime =>
      { success := false, exit_code := some (-1), stdout := outBuf, stderr := errBuf,
        duration_ms := errTime, error := some msg }
  | SpawnBehavior.proc runtime closeTime exitCode outFull errFull outPart errPart =>
      if st < runtime then
        { success := false, exit_code := some (-1), stdout := outPart, stderr := errPart,
          duration_ms := closeTime, error := some killMsg }
      else
        { success := exitCode == some 0, exit_code := exitCode, stdout := outFull,
          stderr := errFull, duration_ms := runtime, error := none }

/-- Math.min(Math.max(timeout, lo), hi), the timeout validation of lines
327, 589 and 696 (lo is the hard-coded 1000, hi the per-interpreter
maximum). -/
def safeClamp (t lo hi : Nat) : Nat := min (max t lo) hi

/-- clamp(t, lo, hi) as the claim words it. -/
def specClamp (t lo hi : Nat) : Nat := if t < lo then lo else if hi < t then hi else t

/-- The whitespace class of the blank-command test (ASCII part of the
JavaScript \s and trim classes). -/
def isJsSpace (c : Char) : Bool :=
  c == ' ' || c == '\t' || c == '\n' || c == '\r' || c == '\x0b' || c == '\x0c'

/-- JavaScript `!s || !s.trim()`: the string is empty or all whitespace. -/
def jsBlank (s : String) : Bool := s.data.all isJsSpace

/-- Node path.dirname for POSIX-style paths: everything before the last
slash (the default working directory of script execution). -/
def dirname (p : String) : String :=
  match (p.data.reverse.dropWhile (fun c => !(c == '/'))).reverse with
  | [] => "."
  | ['/'] => "/"
  | l => String.mk l.dropLast

/-- `cwd ? validatePath(cwd) : dflt` (lines 324, 592, 693): an explicitly
supplied, non-empty working directory is itself validated. -/
def resolveWorkDir (cfg : Config) (norm : String → String) (cwd : Option String)
    (dflt : String) : Except DsError String :=
  match cwd with
  | some c => if c == "" then Except.ok dflt else validatePath cfg norm c
  | none => Except.ok dflt

/-- Last-binding-wins lookup in an environment list, matching JavaScript
object spread where later keys override earlier ones. -/
def envLookup : List (String × String) → String → Option String
  | [], _ => none
  | kv :: rest, k =>
    match envLookup rest k with
    | some v => some v
    | none => if kv.1 == k then some kv.2 else none

/-- The interpreter-tuning variables injected at lines 337-338. -/
def pythonTuningEnv : List (String × String) :=
  [("PYTHONUNBUFFERED", "1"), ("PYTHONDONTWRITEBYTECODE", "1")]

/-- The child environment of a Python execution (lines 335-340):
{...process.env, PYTHONUNBUFFERED: 1, PYTHONDONTWRITEBYTECODE: 1, ...env},
with later entries overriding earlier ones. -/
def procEnv (ambient request : List (String × String)) : List (String × String) :=
  ambient ++ pythonTuningEnv ++ request

/-- The result object of runPythonScript and runPowerShellScript. -/
structure ScriptRunResult where
  success : Bool
  exit_code : Option Int
  stdout : String
  stderr : String
  duration_ms : Nat
  error : Option String
  script_path : String
  working_directory : String
deriving Repr, DecidableEq

/-- The result object of runPowerShell. -/
structure CommandRunResult where
  success : Bool
  exit_code : Option Int
  stdout : String
  stderr : String
  duration_ms : Nat
  error : Option String
  working_directory : String
deriving Repr, DecidableEq

def mkScriptResult (c : ExecCore) (sp wd : String) : ScriptRunResult :=
  { success := c.success, exit_code := c.exit_code, stdout := c.stdout, stderr := c.stderr,
    duration_ms := c.duration_ms, error := c.error, script_path := sp,
    working_directory := wd }

def mkCommandResult (c : ExecCore) (wd : String) : CommandRunResult :=
  { success := c.success, exit_code := c.exit_code, stdout := c.stdout, stderr := c.stderr,
    duration_ms := c.duration_ms, error := c.error, working_directory := wd }

/-! ## runPythonScript (lines 315-415) -/

/-- runPythonScript after validation and existence checking: resolve the
working directory, clamp the timeout, spawn with the merged environment,
and resolve the promise from the process events. -/
def runPythonScriptChecked (cfg : Config) (norm : String → String)
    (ambient : List (String × String)) (validated : String) (args : List String)
    (cwd : Option String) (timeout : Nat) (env : List (String × String))
    (spawner : SpawnCall → SpawnBehavior) : Except DsError ScriptRunResult :=
  match resolveWorkDir cfg norm cwd (dirname validated) with
  | Except.error e => Except.error e
  | Except.ok workDir =>
    let safeTimeout := safeClamp timeout 1000 cfg.pythonMaxTimeout
    Except.ok (mkScriptResult
      (resolveSpawn
        (spawner { exe := cfg.pythonPath, args := validated :: args, cwd := workDir,
                   env := procEnv ambient env })
        safeTimeout
        ("Script killed after timeout (" ++ toString safeTimeout ++ "ms)"))
      validated workDir)

/-- runPythonScript after path validation: throw NotFound before any
process is touched when the script does not exist (lines 319-321). -/
def runPythonScriptValidated (cfg : Config) (norm : String → String)
    (ambient : List (String × String)) (validated : String) (args : List String)
    (cwd : Option String) (timeout : Nat) (env : List (String × String)) (fs : FS)
    (spawner : SpawnCall → SpawnBehavior) : Except DsError ScriptRunResult :=
  match fsGet fs validated with
  | none => Except.error (DsError.err ("Script not found: " ++ validated))
  | some _ => runPythonScriptChecked cfg norm ambient validated args cwd timeout env spawner

/-- runPythonScript (lines 315-415). -/
def runPythonScript (cfg : Config) (norm : String → String)
    (ambient : List (String × String)) (scriptPath : String) (args : List String)
    (cwd : Option String) (timeout : Nat) (env : List (String × String)) (fs : FS)
    (spawner : SpawnCall → SpawnBehavior) : Except DsError ScriptRunResult :=
  match validatePath cfg norm scriptPath with
  | Except.error e => Except.error e
  | Except.ok validated =>
    runPythonScriptValidated cfg norm ambient validated args cwd timeout env fs spawner

/-! ## runPowerShell (lines 583-679) and runPowerShellScript (lines 684-785) -/

/-- runPowerShell after the blank-command contract check: clamp, resolve
the working directory (defaulting to the home directory), spawn with the
fixed argument prefix and the ambient environment, resolve. -/
def runPowerShellChecked (cfg : Config) (norm : String → String)
    (ambient : List (String × String)) (homedir command : String) (timeout : Nat)
    (cwd : Option String) (spawner : SpawnCall → SpawnBehavior) :
    Except DsError CommandRunResult :=
  let safeTimeout := safeClamp timeout 1000 cfg.powershellMaxTimeout
  match resolveWorkDir cfg norm cwd homedir with
  | Except.error e => Except.error e
  | Except.ok workDir =>
    Except.ok (mkCommandResult
      (resolveSpawn
        (spawner { exe := cfg.powershellPath,
                   args := ["-NoProfile", "-NonInteractive", "-ExecutionPolicy", "Bypass",
                            "-Command", command],
                   cwd := workDir, env := ambient })
        safeTimeout
        ("Command killed after timeout (" ++ toString safeTimeout ++ "ms)"))
      workDir)

/-- runPowerShell (lines 583-679): an empty or whitespace-only command
throws before any process is touched. -/
def runPowerShell (cfg : Config) (norm : String → String)
    (ambient : List (String × String)) (homedir command : String) (timeout : Nat)
    (cwd : Option String) (spawner : SpawnCall → SpawnBehavior) :
    Except DsError CommandRunResult :=
  if jsBlank command then Except.error (DsError.err "Command cannot be empty")
  else runPowerShellChecked cfg norm ambient homedir command timeout cwd spawner

/-- runPowerShellScript after validation and existence checking. -/
def runPowerShellScriptChecked (cfg : Config) (norm : String → String)
    (ambient : List (String × String)) (validated : String) (args : List String)
    (timeout : Nat) (cwd : Option String) (spawner : SpawnCall → SpawnBehavior) :
    Except DsError ScriptRunResult :=
  match resolveWorkDir cfg norm cwd (dirname validated) with
  | Except.error e => Except.error e
  | Except.ok workDir =>
    let safeTimeout := safeClamp timeout 1000 cfg.powershellMaxTimeout
    Except.ok (mkScriptResult
      (resolveSpawn
        (spawner { exe := cfg.powershellPath,
                   args := ["-NoProfile", "-NonInteractive", "-ExecutionPolicy", "Bypass",
                            "-File", validated] ++ args,
                   cwd := workDir, env := ambient })
        safeTimeout
        ("Script killed after timeout (" ++ toString safeTimeout ++ "ms)"))
      validated workDir)

/-- runPowerShellScript after path validation: NotFound before spawning
when the script is missing (lines 688-690). -/
def runPowerShellScriptValidated (cfg : Config) (norm : String → String)
    (ambient : List (String × String)) (validated : String) (args : List String)
    (timeout : Nat) (cwd : Option String) (fs : FS)
    (spawner : SpawnCall → SpawnBehavior) : Except DsError ScriptRunResult :=
  match fsGet fs validated with
  | none => Except.error (DsError.err ("Script not found: " ++ validated))
  | some _ => runPowerShellScriptChecked cfg norm ambient validated args timeout cwd spawner

/-- runPowerShellScript (lines 684-785). -/
def runPowerShellScript (cfg : Config) (norm : String → String)
    (ambient : List (String × String)) (scriptPath : String) (args : List String)
    (timeout : Nat) (cwd : Option String) (fs : FS)
    (spawner : SpawnCall → SpawnBehavior) : Except DsError ScriptRunResult :=
  match validatePath cfg norm scriptPath with
  | Except.error e => Except.error e
  | Except.ok validated =>
    runPowerShellScriptValidated cfg norm ambient validated args timeout cwd fs spawner

theorem runPythonScript_eq_validated (cfg : Config) (norm : String → String)
    (ambient : List (String × String)) (sp : String) (args : List String)
    (cwd : Option String) (t : Nat) (env : List (String × String)) (fs : FS)
    (spawner : SpawnCall → SpawnBehavior) (v : String)
    (hv : validatePath cfg norm sp = Except.ok v) :
    runPythonScript cfg norm ambient sp args cwd t env fs spawner =
      runPythonScriptValidated cfg norm ambient v args cwd t env fs spawner := by
  unfold runPythonScript
  rw [hv]

theorem runPythonScriptValidated_eq_checked (cfg : Config) (norm : String → String)
    (ambient : List (String × String)) (v : String) (args : List String)
    (cwd : Option String) (t : Nat) (env : List (String × String)) (fs : FS)
    (spawner : SpawnCall → SpawnBehavior) (c : String)
    (hex : fsGet fs v = some c) :
    runPythonScriptValidated cfg norm ambient v args cwd t env fs spawner =
      runPythonScriptChecked cfg norm ambient v args cwd t env spawner := by
  unfold runPythonScriptValidated
  rw [hex]

theorem runPythonScriptChecked_eq (cfg : Config) (norm : String → String)
    (ambient : List (String × String)) (v : String) (args : List String)
    (cwd : Option String) (t : Nat) (env : List (String × String))
    (spawner : SpawnCall → SpawnBehavior) (wd : String)
    (hwd : resolveWorkDir cfg norm cwd (dirname v) = Except.ok wd) :
    runPythonScriptChecked cfg norm ambient v args cwd t env spawner =
      Except.ok (mkScriptResult
        (resolveSpawn
          (spawner { exe := cfg.pythonPath, args := v :: args, cwd := wd,
                     env := procEnv ambient env })
          (safeClamp t 1000 cfg.pythonMaxTimeout)
          ("Script killed after timeout ("
            ++ toString (safeClamp t 1000 cfg.pythonMaxTimeout) ++ "ms)"))
        v wd) := by
  unfold runPythonScriptChecked
  rw [hwd]

theorem runPowerShell_eq_checked (cfg : Config) (norm : String → String)
    (ambient : List (String × String)) (homedir cmd : String) (t : Nat)
    (cwd : Option String) (spawner : SpawnCall → SpawnBehavior)
    (hcmd : jsBlank cmd = false) :
    runPowerShell cfg norm ambient homedir cmd t cwd spawner =
      runPowerShellChecked cfg norm ambient homedir cmd t cwd spawner := by
  unfold runPowerShell
  rw [hcmd]
  rfl

theorem runPowerShellChecked_eq (cfg : Config) (norm : String → String)
    (ambient : List (String × String)) (homedir cmd : String) (t : Nat)
    (cwd : Option String) (spawner : SpawnCall → SpawnBehavior) (wd : String)
    (hwd : resolveWorkDir cfg norm cwd homedir = Except.ok wd) :
    runPowerShellChecked cfg norm ambient homedir cmd t cwd spawner =
      Except.ok (mkCommandResult
        (resolveSpawn
          (spawner { exe := cfg.powershellPath,
                     args := ["-NoProfile", "-NonInteractive", "-ExecutionPolicy", "Bypass",
                              "-Command", cmd],
                     cwd := wd, env := ambient })
          (safeClamp t 1000 cfg.powershellMaxTimeout)
          ("Command killed after timeout ("
            ++ toString (safeClamp t 1000 cfg.powershellMaxTimeout) ++ "ms)"))
        wd) := by
  unfold runPowerShellChecked
  rw [hwd]

theorem runPowerShellScript_eq_validated (cfg : Config) (norm : String → String)
    (ambient : List (String × String)) (sp : String) (args : List String) (t : Nat)
    (cwd : Option String) (fs : FS) (spawner : SpawnCall → SpawnBehavior) (v : String)
    (hv : validatePath cfg norm sp = Except.ok v) :
    runPowerShellScript cfg norm ambient sp args t cwd fs spawner =
      runPowerShellScriptValidated cfg norm ambient v args t cwd fs spawner := by
  unfold runPowerShellScript
  rw [hv]

theorem runPowerShellScriptValidated_eq_checked (cfg : Config) (norm : String → String)
    (ambient : List (String × String)) (v : String) (args : List String) (t : Nat)
    (cwd : Option String) (fs : FS) (spawner : SpawnCall → SpawnBehavior) (c : String)
    (hex : fsGet fs v = some c) :
    runPowerShellScriptValidated cfg norm ambient v args t cwd fs spawner =
      runPowerShellScriptChecked cfg norm ambient v args t cwd spawner := by
  unfold runPowerShellScriptValidated
  rw [hex]

theorem runPowerShellScriptChecked_eq (cfg : Config) (norm : String → String)
    (ambient : List (String × String)) (v : String) (args : List String) (t : Nat)
    (cwd : Option String) (spawner : SpawnCall → SpawnBehavior) (wd : String)
    (hwd : resolveWorkDir cfg norm cwd (dirname v) = Except.ok wd) :
    runPowerShellScriptChecked cfg norm ambient v args t cwd spawner =
      Except.ok (mkScriptResult
        (resolveSpawn
          (spawner { exe := cfg.powershellPath,
                     args := ["-NoProfile", "-NonInteractive", "-ExecutionPolicy", "Bypass",
                              "-File", v] ++ args,
                     cwd := wd, env := ambient })
          (safeClamp t 1000 cfg.powershellMaxTimeout)
          ("Script killed after timeout ("
            ++ toString (safeClamp t 1000 cfg.powershellMaxTimeout) ++ "ms)"))
        v wd) := by
  unfold runPowerShellScriptChecked
  rw [hwd]

/-- C5: the effective timeout is the requested timeout clamped into the
per-interpreter bounds; whenever the process would outlive it, the kill
flag fires and the resolved result is the timeout-specific one: success
false, sentinel exit code -1, the output captured so far, and an error
naming the clamped timeout value, instead of a normal-exit result.
Proved for both runPythonScript and runPowerShell, with the same
behavior value, so a process with exit code 0 still resolves as killed. -/
theorem timeout_kill_result (cfg : Config) (norm : String → String)
    (ambient : List (String × String)) (sp : String) (args : List String)
    (cwd : Option String) (t : Nat) (env : List (String × String)) (fs : FS)
    (v wd c : String) (rt ct : Nat) (ec : Option Int) (ofl efl opt ept : String)
    (homedir cmd : String) (cwd2 : Option String) (wd2 : String)
    (hv : validatePath cfg norm sp = Except.ok v)
    (hex : fsGet fs v = some c)
    (hwd : resolveWorkDir cfg norm cwd (dirname v) = Except.ok wd)
    (hrt : safeClamp t 1000 cfg.pythonMaxTimeout < rt)
    (hcmd : jsBlank cmd = false)
    (hwd2 : resolveWorkDir cfg norm cwd2 homedir = Except.ok wd2)
    (hrt2 : safeClamp t 1000 cfg.powershellMaxTimeout < rt) :
    runPythonScript cfg norm ambient sp args cwd t env fs
        (fun _ => SpawnBehavior.proc rt ct ec ofl efl opt ept) =
      Except.ok
        { success := false, exit_code := some (-1), stdout := opt, stderr := ept,
          duration_ms := ct,
          error := some ("Script killed after timeout ("
            ++ toString (safeClamp t 1000 cfg.pythonMaxTimeout) ++ "ms)"),
          script_path := v, working_directory := wd } ∧
    runPowerShell cfg norm ambient homedir cmd t cwd2
        (fun _ => SpawnBehavior.proc rt ct ec ofl efl opt ept) =
      Except.ok
        { success := false, exit_code := some (-1), stdout := opt, stderr := ept,
          duration_ms := ct,
          error := some ("Command killed after timeout ("
            ++ toString (safeClamp t 1000 cfg.powershellMaxTimeout) ++ "ms)"),
          working_directory := wd2 } ∧
    (1000 ≤ cfg.pythonMaxTimeout →
      safeClamp t 1000 cfg.pythonMaxTimeout = specClamp t 1000 cfg.pythonMaxTimeout) ∧
    (1000 ≤ cfg.powershellMaxTimeout →
      safeClamp t 1000 cfg.powershellMaxTimeout = specClamp t 1000 cfg.powershellMaxTimeout) := by
  refine ⟨?_, ?_, ?_, ?_⟩
  · rw [runPythonScript_eq_validated cfg norm ambient sp args cwd t env fs _ v hv,
      runPythonScriptValidated_eq_checked cfg norm ambient v args cwd t env fs _ c hex,
      runPythonScriptChecked_eq cfg norm ambient v args cwd t env _ wd hwd]
    simp only [resolveSpawn]
    rw [if_pos hrt]
    rfl
  · rw [runPowerShell_eq_checked cfg norm ambient homedir cmd t cwd2 _ hcmd,
      runPowerShellChecked_eq cfg norm ambient homedir cmd t cwd2 _ wd2 hwd2]
    simp only [resolveSpawn]
    rw [if_pos hrt2]
    rfl
  · intro h
    unfold safeClamp specClamp
    rw [Nat.min_def, Nat.max_def]
    split_ifs <;> omega
  · intro h
    unfold safeClamp specClamp
    rw [Nat.min_def, Nat.max_def]
    split_ifs <;> omega

/-- Witness for C5: a 2000ms request against the default bounds, a process
that would run 3000ms and exit 0, for both interpreters. -/
theorem timeout_kill_result_witness :
    runPythonScript defaultConfig id [] "/tmp/s.py" [] none 2000 [] [("/tmp/s.py", "x")]
        (fun _ => SpawnBehavior.proc 3000 3100 (some 0) "of" "ef" "op" "ep") =
      Except.ok
        { success := false, exit_code := some (-1), stdout := "op", stderr := "ep",
          duration_ms := 3100, error := some "Script killed after timeout (2000ms)",
          script_path := "/tmp/s.py", working_directory := "/tmp" } ∧
    runPowerShell defaultConfig id [] "/home/u" "dir" 2000 none
        (fun _ => SpawnBehavior.proc 3000 3100 (some 0) "of" "ef" "op" "ep") =
      Except.ok
        { success := false, exit_code := some (-1), stdout := "op", stderr := "ep",
          duration_ms := 3100, error := some "Command killed after timeout (2000ms)",
          working_directory := "/home/u" } ∧
    safeClamp 2000 1000 300000 = specClamp 2000 1000 300000 ∧
    safeClamp 2000 1000 600000 = specClamp 2000 1000 600000 := by
  have h := timeout_kill_result defaultConfig id [] "/tmp/s.py" [] none 2000 [] [("/tmp/s.py", "x")]
    "/tmp/s.py" "/tmp" "x" 3000 3100 (some 0) "of" "ef" "op" "ep" "/home/u" "dir" none "/home/u"
    (by rfl) (by rfl) (by rfl) (by decide) (by rfl) (by rfl) (by decide)
  exact ⟨h.1, h.2.1, h.2.2.1 (by decide), h.2.2.2 (by decide)⟩

/-! ## The environment overlay (C9) -/

theorem envLookup_append (a b : List (String × String)) (k : String) :
    envLookup (a ++ b) k =
      (match envLookup b k with
       | some v => some v
       | none => envLookup a k) := by
  induction a with
  | nil => cases hb : envLookup b k <;> simp [envLookup, hb]
  | cons kv rest ih =>
    simp only [List.cons_append, envLookup, List.append_eq]
    rw [ih]
    cases hb : envLookup b k <;> cases hr : envLookup rest k <;> simp [hb, hr]

/-- Counterexample to C9 as stated: the request overlay is spread after
the tuning variables (line 339 comes after lines 337-338), so a request
that binds PYTHONUNBUFFERED overrides the injected value; the child
environment then carries the request's value, not 1. -/
theorem env_overlay_counterexample :
    envLookup (procEnv [] [("PYTHONUNBUFFERED", "0")]) "PYTHONUNBUFFERED" = some "0" ∧
    envLookup (procEnv [] [("PYTHONUNBUFFERED", "0")]) "PYTHONUNBUFFERED" ≠ some "1" := by
  constructor
  · rfl
  · decide

/-- C9 amended: the child environment of a Python execution is the
ambient environment, overlaid first with PYTHONUNBUFFERED=1 and
PYTHONDONTWRITEBYTECODE=1 and then with the request-supplied pairs, later
bindings winning; so the request overlay always takes precedence, the
tuning variables read 1 whenever the request does not itself bind them,
and every other name falls through to the ambient environment. -/
theorem env_overlay_behavior (ambient request : List (String × String)) :
    (∀ k v, envLookup request k = some v → envLookup (procEnv ambient request) k = some v) ∧
    (envLookup request "PYTHONUNBUFFERED" = none →
       envLookup (procEnv ambient request) "PYTHONUNBUFFERED" = some "1") ∧
    (envLookup request "PYTHONDONTWRITEBYTECODE" = none →
       envLookup (procEnv ambient request) "PYTHONDONTWRITEBYTECODE" = some "1") ∧
    (∀ k, envLookup request k = none → envLookup pythonTuningEnv k = none →
       envLookup (procEnv ambient request) k = envLookup ambient k) := by
  refine ⟨?_, ?_, ?_, ?_⟩
  · intro k v h
    unfold procEnv
    rw [envLookup_append, h]
  · intro h
    unfold procEnv
    rw [envLookup_append, h, envLookup_append]
    rfl
  · intro h
    unfold procEnv
    rw [envLookup_append, h, envLookup_append]
    rfl
  · intro k h1 h2
    unfold procEnv
    rw [envLookup_append, h1, envLookup_append, h2]

/-- Witness for the amended C9 at concrete environments. -/
theorem env_overlay_behavior_witness :
    envLookup (procEnv [("HOME", "/root")] [("K", "v")]) "K" = some "v" ∧
    envLookup (procEnv [("HOME", "/root")] [("K", "v")]) "PYTHONUNBUFFERED" = some "1" ∧
    envLookup (procEnv [("HOME", "/root")] [("K", "v")]) "PYTHONDONTWRITEBYTECODE" = some "1" ∧
    envLookup (procEnv [("HOME", "/root")] [("K", "v")]) "HOME" =
      envLookup [("HOME", "/root")] "HOME" := by
  have h := env_overlay_behavior [("HOME", "/root")] [("K", "v")]
  exact ⟨h.1 "K" "v" (by rfl), h.2.1 (by rfl), h.2.2.1 (by rfl),
    h.2.2.2 "HOME" (by rfl) (by rfl)⟩

/-! ## The code safety filter (lines 289-309)

The DANGEROUS_PATTERNS regular expressions are embedded as executable
character-list matchers.  Every pattern has the shape: a word boundary,
a literal (with escaped dots taken literally), then either optional
whitespace and an opening parenthesis, an alternation of literals before
the parenthesis, or for the open() pattern a scan for a quote followed by
a write/append mode character before any closing parenthesis.  `source`
is the JavaScript RegExp toString() that the error message interpolates. -/

/-- The JavaScript \w class (regex word characters). -/
def isWordChar (c : Char) : Bool := c.isAlphanum || c == '_'

/-- Match a literal prefix, returning the rest of the input. -/
def matchLit : List Char → List Char → Option (List Char)
  | [], s => some s
  | _ :: _, [] => none
  | c :: cs, d :: ds => if c == d then matchLit cs ds else none

/-- Consume the regex \s* class. -/
def skipJsSpaces : List Char → List Char
  | [] => []
  | c :: cs => if isJsSpace c then skipJsSpaces cs else c :: cs

/-- \s*\( : optional whitespace then an opening parenthesis. -/
def parenNext (s : List Char) : Bool :=
  match skipJsSpaces s with
  | '(' :: _ => true
  | _ => false

/-- lit\s*\( at the head of the input. -/
def callTest (lit : List Char) (s : List Char) : Bool :=
  match matchLit lit s with
  | some rest => parenNext rest
  | none => false

/-- subprocess\.(call|run|Popen)\s*\( at the head of the input. -/
def subprocTest (s : List Char) : Bool :=
  match matchLit "subprocess.".data s with
  | some rest =>
      (match matchLit "call".data rest with
       | some r2 => parenNext r2
       | none => false) ||
      (match matchLit "run".data rest with
       | some r2 => parenNext r2
       | none => false) ||
      (match matchLit "Popen".data rest with
       | some r2 => parenNext r2
       | none => false)
  | none => false

/-- The [^)]*[quote][wa] tail of the open() pattern: scan forward while no
closing parenthesis, looking for a quote directly followed by w or a. -/
def openWriteTail : List Char → Bool
  | [] => false
  | c :: cs =>
    if c == ')' then false
    else if c == '\x27' || c == '"' then
      (match cs with
       | d :: _ => d == 'w' || d == 'a'
       | [] => false) || openWriteTail cs
    else openWriteTail cs

/-- open\s*\([^)]*[quote][wa] at the head of the input. -/
def openWriteTest (s : List Char) : Bool :=
  match matchLit "open".data s with
  | some rest =>
    match skipJsSpaces rest with
    | '(' :: r2 => openWriteTail r2
    | _ => false
  | none => false

/-- RegExp.test: try the anchored test at every position; a position
qualifies only when a word boundary precedes it (start of input or a
non-word character), which is the \b at the head of every pattern. -/
def scanBound (test : List Char → Bool) : List Char → Bool → Bool
  | [], _ => false
  | c :: cs, bOk => (bOk && test (c :: cs)) || scanBound test cs (!(isWordChar c))

/-- One entry of DANGEROUS_PATTERNS: the RegExp source text (as toString
prints it) and its compiled test. -/
structure Pattern where
  source : String
  test : String → Bool

/-- A \b lit \s* \( pattern. -/
def mkWordCallPattern (src lit : String) : Pattern :=
  { source := src, test := fun code => scanBound (callTest lit.data) code.data true }

def osSystemPattern : Pattern := mkWordCallPattern "/\\bos\\.system\\s*\\(/" "os.system"

def subprocessPattern : Pattern :=
  { source := "/\\bsubprocess\\.(call|run|Popen)\\s*\\(/",
    test := fun code => scanBound subprocTest code.data true }

def evalCallPattern : Pattern := mkWordCallPattern "/\\beval\\s*\\(/" "eval"

def execCallPattern : Pattern := mkWordCallPattern "/\\bexec\\s*\\(/" "exec"

def importCallPattern : Pattern := mkWordCallPattern "/\\b__import__\\s*\\(/" "__import__"

def openWritePattern : Pattern :=
  { source := "/\\bopen\\s*\\([^)]*[\x27\"][wa]/",
    test := fun code => scanBound openWriteTest code.data true }

def shutilRmtreePattern : Pattern := mkWordCallPattern "/\\bshutil\\.rmtree\\s*\\(/" "shutil.rmtree"

def osRemovePattern : Pattern := mkWordCallPattern "/\\bos\\.remove\\s*\\(/" "os.remove"

def osUnlinkPattern : Pattern := mkWordCallPattern "/\\bos\\.unlink\\s*\\(/" "os.unlink"

def osRmdirPattern : Pattern := mkWordCallPattern "/\\bos\\.rmdir\\s*\\(/" "os.rmdir"

/-- DANGEROUS_PATTERNS (lines 289-300), in source order. -/
def DANGEROUS_PATTERNS : List Pattern :=
  [osSystemPattern, subprocessPattern, evalCallPattern, execCallPattern, importCallPattern,
   openWritePattern, shutilRmtreePattern, osRemovePattern, osUnlinkPattern, osRmdirPattern]

/-- The for loop of checkPythonCodeSafety: first matching pattern wins. -/
def firstDangerous : List Pattern → String → Option Pattern
  | [], _ => none
  | p :: rest, code => if p.test code then some p else firstDangerous rest code

/-- The result object of checkPythonCodeSafety. -/
structure SafetyCheck where
  safe : Bool
  reason : Option String
deriving Repr

/-- checkPythonCodeSafety (lines 302-309). -/
def checkPythonCodeSafety (code : String) : SafetyCheck :=
  match firstDangerous DANGEROUS_PATTERNS code with
  | some p => { safe := false, reason := some ("Dangerous pattern detected: " ++ p.source) }
  | none => { safe := true, reason := none }

/-! ## runPythonCode (lines 421-457) -/

/-- os.tmpdir(), fixed to the POSIX scratch convention. -/
def tmpdir : String := "/tmp"

/-- The staged temporary file path of line 434: `rand` stands for the
Math.random().toString(36).slice(2) suffix and `now` for Date.now(). -/
def pythonTempFile (now : Nat) (rand : String) : String :=
  tmpdir ++ "/darkside_python_" ++ toString now ++ "_" ++ rand ++ ".py"

/-- JavaScript `o || d` for an optional string: the default replaces a
missing or empty value. -/
def jsOrD (o : Option String) (d : String) : String :=
  match o with
  | some s => if s == "" then d else s
  | none => d

/-- The result of runPythonCode: the script result plus the truncated
code preview added at line 446. -/
structure PyCodeResult where
  success : Bool
  exit_code : Option Int
  stdout : String
  stderr : String
  duration_ms : Nat
  error : Option String
  script_path : String
  working_directory : String
  code_preview : String
deriving Repr, DecidableEq

def withPreview (r : ScriptRunResult) (code : String) : PyCodeResult :=
  { success := r.success, exit_code := r.exit_code, stdout := r.stdout, stderr := r.stderr,
    duration_ms := r.duration_ms, error := r.error, script_path := r.script_path,
    working_directory := r.working_directory,
    code_preview := if 200 < code.length then String.mk (code.data.take 200) ++ "..." else code }

/-- runPythonCode (lines 421-457): reject blank code, run the safety
filter (failure throws before the temporary file is created), stage the
code in the scratch directory, execute it as a script, and delete the
temporary file on every exit path (the try/finally of lines 438-456),
whether the execution resolved or threw. -/
def runPythonCode (cfg : Config) (norm : String → String)
    (ambient : List (String × String)) (code : String) (timeout : Nat)
    (cwd : Option String) (env : List (String × String)) (fs : FS) (now : Nat)
    (rand : String) (spawner : SpawnCall → SpawnBehavior) :
    Except DsError PyCodeResult × FS :=
  if jsBlank code then (Except.error (DsError.err "Code cannot be empty"), fs)
  else
    let check := checkPythonCodeSafety code
    if check.safe = false then
      (Except.error (DsError.err ("Security check failed: " ++ check.reason.getD "")), fs)
    else
      let tempFile := pythonTempFile now rand
      let fs1 := fsSet fs tempFile code
      let res := runPythonScript cfg norm ambient tempFile [] (some (jsOrD cwd tmpdir))
        timeout env fs1 spawner
      let fs2 := fsDel fs1 tempFile
      ((match res with
        | Except.ok r => Except.ok (withPreview r code)
        | Except.error e => Except.error e), fs2)

theorem matchLit_head (a : Char) (as s r : List Char)
    (h : matchLit (a :: as) s = some r) : ∃ t, s = a :: t := by
  cases s with
  | nil => simp [matchLit] at h
  | cons d ds =>
    by_cases hd : (a == d) = true
    · exact ⟨ds, by rw [eq_of_beq hd]⟩
    · rw [Bool.not_eq_true] at hd
      simp [matchLit, hd] at h

theorem callTest_head (a : Char) (as s : List Char)
    (h : callTest (a :: as) s = true) : ∃ t, s = a :: t := by
  unfold callTest at h
  cases hm : matchLit (a :: as) s with
  | none => rw [hm] at h; simp at h
  | some rest => exact matchLit_head a as s rest hm

theorem subprocTest_head (s : List Char) (h : subprocTest s = true) :
    ∃ t, s = 's' :: t := by
  unfold subprocTest at h
  cases hm : matchLit ("subprocess.".data) s with
  | none => rw [hm] at h; simp at h
  | some rest => exact matchLit_head 's' ("ubprocess.".data) s rest hm

theorem openWriteTest_head (s : List Char) (h : openWriteTest s = true) :
    ∃ t, s = 'o' :: t := by
  unfold openWriteTest at h
  cases hm : matchLit ("open".data) s with
  | none => rw [hm] at h; simp at h
  | some rest => exact matchLit_head 'o' ("pen".data) s rest hm

theorem scanBound_exists_word (test : List Char → Bool)
    (hhead : ∀ s, test s = true → ∃ c t, s = c :: t ∧ isWordChar c = true) :
    ∀ (l : List Char) (b : Bool), scanBound test l b = true →
      ∃ c, c ∈ l ∧ isWordChar c = true := by
  intro l
  induction l with
  | nil => intro b h; simp [scanBound] at h
  | cons c cs ih =>
    intro b h
    unfold scanBound at h
    rw [Bool.or_eq_true, Bool.and_eq_true] at h
    rcases h with ⟨hb1, h1⟩ | h2
    · obtain ⟨c0, t, heq, hw⟩ := hhead _ h1
      have hc : c0 = c := by
        injection heq with h3 h4
        exact h3.symm
      exact ⟨c, List.mem_cons_self c cs, hc ▸ hw⟩
    · obtain ⟨c0, hmem, hw⟩ := ih _ h2
      exact ⟨c0, List.mem_cons_of_mem c hmem, hw⟩

theorem word_not_space (c : Char) (hw : isWordChar c = true) : isJsSpace c = false := by
  cases hs : isJsSpace c
  · rfl
  · exfalso
    simp only [isJsSpace, Bool.or_eq_true, beq_iff_eq] at hs
    rcases hs with ((((h | h) | h) | h) | h) | h <;> subst h <;> exact absurd hw (by decide)

theorem jsBlank_false_of_word (code : String) (c : Char) (hc : c ∈ code.data)
    (hw : isWordChar c = true) : jsBlank code = false := by
  cases hb : jsBlank code
  · rfl
  · exfalso
    unfold jsBlank at hb
    have hsp := List.all_eq_true.mp hb c hc
    rw [word_not_space c hw] at hsp
    exact Bool.false_ne_true hsp

/-- Every dangerous pattern only matches code containing a word character
(the character under the \b anchor), so matching code is never blank. -/
theorem dangerous_head (p : Pattern) (hp : p ∈ DANGEROUS_PATTERNS) (code : String)
    (ht : p.test code = true) : ∃ c, c ∈ code.data ∧ isWordChar c = true := by
  have hscan : ∀ (test : List Char → Bool),
      (∀ s, test s = true → ∃ c t, s = c :: t ∧ isWordChar c = true) →
      scanBound test code.data true = true →
      ∃ c, c ∈ code.data ∧ isWordChar c = true :=
    fun test hh => scanBound_exists_word test hh code.data true
  simp only [DANGEROUS_PATTERNS, List.mem_cons, List.not_mem_nil, or_false] at hp
  rcases hp with rfl | rfl | rfl | rfl | rfl | rfl | rfl | rfl | rfl | rfl
  · exact hscan _ (fun s hs => by
      obtain ⟨t, rfl⟩ := callTest_head 'o' ("s.system".data) s hs
      exact ⟨'o', t, rfl, by decide⟩) ht
  · exact hscan _ (fun s hs => by
      obtain ⟨t, rfl⟩ := subprocTest_head s hs
      exact ⟨'s', t, rfl, by decide⟩) ht
  · exact hscan _ (fun s hs => by
      obtain ⟨t, rfl⟩ := callTest_head 'e' ("val".data) s hs
      exact ⟨'e', t, rfl, by decide⟩) ht
  · exact hscan _ (fun s hs => by
      obtain ⟨t, rfl⟩ := callTest_head 'e' ("xec".data) s hs
      exact ⟨'e', t, rfl, by decide⟩) ht
  · exact hscan _ (fun s hs => by
      obtain ⟨t, rfl⟩ := callTest_head '_' ("_import__".data) s hs
      exact ⟨'_', t, rfl, by decide⟩) ht
  · exact hscan _ (fun s hs => by
      obtain ⟨t, rfl⟩ := openWriteTest_head s hs
      exact ⟨'o', t, rfl, by decide⟩) ht
  · exact hscan _ (fun s hs => by
      obtain ⟨t, rfl⟩ := callTest_head 's' ("hutil.rmtree".data) s hs
      exact ⟨'s', t, rfl, by decide⟩) ht
  · exact hscan _ (fun s hs => by
      obtain ⟨t, rfl⟩ := callTest_head 'o' ("s.remove".data) s hs
      exact ⟨'o', t, rfl, by decide⟩) ht
  · exact hscan _ (fun s hs => by
      obtain ⟨t, rfl⟩ := callTest_head 'o' ("s.unlink".data) s hs
      exact ⟨'o', t, rfl, by decide⟩) ht
  · exact hscan _ (fun s hs => by
      obtain ⟨t, rfl⟩ := callTest_head 'o' ("s.rmdir".data) s hs
      exact ⟨'o', t, rfl, by decide⟩) ht

theorem dangerous_not_blank (code : String) (p : Pattern) (hp : p ∈ DANGEROUS_PATTERNS)
    (ht : p.test code = true) : jsBlank code = false := by
  obtain ⟨c, hc, hw⟩ := dangerous_head p hp code ht
  exact jsBlank_false_of_word code c hc hw

theorem firstDangerous_some (ps : List Pattern) (code : String) (p : Pattern)
    (hp : p ∈ ps) (ht : p.test code = true) :
    ∃ p0, firstDangerous ps code = some p0 ∧ p0 ∈ ps ∧ p0.test code = true := by
  induction ps with
  | nil => simp at hp
  | cons q rest ih =>
    by_cases hq : q.test code = true
    · exact ⟨q, by simp [firstDangerous, hq], List.mem_cons_self q rest, hq⟩
    · have hqf : q.test code = false := Bool.not_eq_true _ ▸ hq
      rcases List.mem_cons.mp hp with rfl | hp2
      · exact absurd ht hq
      · obtain ⟨p0, h1, h2, h3⟩ := ih hp2
        refine ⟨p0, ?_, List.mem_cons_of_mem q h2, h3⟩
        simp [firstDangerous, hqf, h1]

/-- C7: inline code matching any of the fixed dangerous patterns makes
run_python_code fail with the security-check error naming the first
matching pattern (the list is scanned in order), before any side effect:
the returned filesystem is the input filesystem unchanged (no temporary
file was staged or survives) and the result does not depend on the
spawner (no process is spawned). -/
theorem unsafe_code_rejected_before_side_effects (cfg : Config) (norm : String → String)
    (ambient : List (String × String)) (code : String) (timeout : Nat)
    (cwd : Option String) (env : List (String × String)) (fs : FS) (now : Nat)
    (rand : String) (spawner : SpawnCall → SpawnBehavior)
    (h : ∃ p, p ∈ DANGEROUS_PATTERNS ∧ p.test code = true) :
    ∃ p0, firstDangerous DANGEROUS_PATTERNS code = some p0 ∧ p0 ∈ DANGEROUS_PATTERNS ∧
      runPythonCode cfg norm ambient code timeout cwd env fs now rand spawner =
        (Except.error (DsError.err
          ("Security check failed: " ++ ("Dangerous pattern detected: " ++ p0.source))), fs) := by
  obtain ⟨p, hp, ht⟩ := h
  obtain ⟨p0, hf, hp0, ht0⟩ := firstDangerous_some DANGEROUS_PATTERNS code p hp ht
  have hb : jsBlank code = false := dangerous_not_blank code p0 hp0 ht0
  refine ⟨p0, hf, hp0, ?_⟩
  unfold runPythonCode checkPythonCodeSafety
  rw [hb, hf]
  rfl

/-- Witness for C7: code text calling os.system, matched by the first
pattern; the filesystem stays empty and the error names that pattern. -/
theorem unsafe_code_rejected_witness :
    ∃ p0, firstDangerous DANGEROUS_PATTERNS "os.system(1)" = some p0 ∧
      p0 ∈ DANGEROUS_PATTERNS ∧
      runPythonCode defaultConfig id [] "os.system(1)" 1000 none [] [] 5 "ab"
          (fun _ => SpawnBehavior.spawnErr "x" "" "" 0) =
        (Except.error (DsError.err
          ("Security check failed: " ++ ("Dangerous pattern detected: " ++ p0.source))), []) :=
  unsafe_code_rejected_before_side_effects defaultConfig id [] "os.system(1)" 1000 none [] [] 5
    "ab" (fun _ => SpawnBehavior.spawnErr "x" "" "" 0)
    ⟨osSystemPattern, by simp [DANGEROUS_PATTERNS], by decide⟩

/-- C8: whenever run_python_code passes the blank and safety checks and
stages its temporary code file, the file is absent from the filesystem
returned by the call, for every spawner behavior (normal completion,
failing execution, spawn error or timeout kill) and for every working
directory, including one whose validation makes the execution throw:
the try/finally removal covers every exit path. -/
theorem temp_file_removed_on_all_paths (cfg : Config) (norm : String → String)
    (ambient : List (String × String)) (code : String) (timeout : Nat)
    (cwd : Option String) (env : List (String × String)) (fs : FS) (now : Nat)
    (rand : String) (spawner : SpawnCall → SpawnBehavior)
    (hne : jsBlank code = false)
    (hsafe : firstDangerous DANGEROUS_PATTERNS code = none) :
    fsGet (runPythonCode cfg norm ambient code timeout cwd env fs now rand spawner).2
        (pythonTempFile now rand) = none := by
  unfold runPythonCode checkPythonCodeSafety
  rw [hne, hsafe]
  exact fsGet_del_self _ _

/-- Witness for C8 at a concrete safe snippet and a behavior that would
time out; the staged temporary file is gone from the returned state. -/
theorem temp_file_removed_witness :
    fsGet (runPythonCode defaultConfig id [] "print(1)" 1000 none [] [] 5 "ab"
        (fun _ => SpawnBehavior.proc 99999 99999 (some 0) "1" "" "" "")).2
      (pythonTempFile 5 "ab") = none :=
  temp_file_removed_on_all_paths defaultConfig id [] "print(1)" 1000 none [] [] 5 "ab"
    (fun _ => SpawnBehavior.proc 99999 99999 (some 0) "1" "" "" "") (by rfl) (by rfl)

/-- C6: process-level failures never throw.  For every spawner behavior
(spawn error, timeout, any exit code), a request that passes the
pre-spawn validation resolves to an Except.ok ExecutionResult, for
runPowerShell, runPythonScript and runPowerShellScript alike; a spawn
error in particular resolves to success=false, exit code -1 and the
error message.  Exceptions arise only from contract violations checked
before any process is touched: an empty or whitespace-only command
(runPowerShell) or code string (runPythonCode), whose error does not
depend on the spawner and leaves the filesystem untouched. -/
theorem process_failures_encoded :
    (∀ (cfg : Config) (norm : String → String) (ambient : List (String × String))
       (homedir cmd : String) (t : Nat) (cwd : Option String) (wd : String)
       (spawner : SpawnCall → SpawnBehavior),
       jsBlank cmd = false → resolveWorkDir cfg norm cwd homedir = Except.ok wd →
       ∃ r, runPowerShell cfg norm ambient homedir cmd t cwd spawner = Except.ok r) ∧
    (∀ (cfg : Config) (norm : String → String) (ambient : List (String × String))
       (homedir cmd : String) (t : Nat) (cwd : Option String)
       (wd msg outBuf errBuf : String) (tm : Nat),
       jsBlank cmd = false → resolveWorkDir cfg norm cwd homedir = Except.ok wd →
       runPowerShell cfg norm ambient homedir cmd t cwd
           (fun _ => SpawnBehavior.spawnErr msg outBuf errBuf tm) =
         Except.ok { success := false, exit_code := some (-1), stdout := outBuf,
                     stderr := errBuf, duration_ms := tm, error := some msg,
                     working_directory := wd }) ∧
    (∀ (cfg : Config) (norm : String → String) (ambient : List (String × String))
       (homedir cmd : String) (t : Nat) (cwd : Option String)
       (spawner : SpawnCall → SpawnBehavior),
       jsBlank cmd = true →
       runPowerShell cfg norm ambient homedir cmd t cwd spawner =
         Except.error (DsError.err "Command cannot be empty")) ∧
    (∀ (cfg : Config) (norm : String → String) (ambient : List (String × String))
       (sp : String) (args : List String) (cwd : Option String) (t : Nat)
       (env : List (String × String)) (fs : FS) (v c wd : String)
       (spawner : SpawnCall → SpawnBehavior),
       validatePath cfg norm sp = Except.ok v → fsGet fs v = some c →
       resolveWorkDir cfg norm cwd (dirname v) = Except.ok wd →
       ∃ r, runPythonScript cfg norm ambient sp args cwd t env fs spawner = Except.ok r) ∧
    (∀ (cfg : Config) (norm : String → String) (ambient : List (String × String))
       (sp : String) (args : List String) (t : Nat) (cwd : Option String) (fs : FS)
       (v c wd : String) (spawner : SpawnCall → SpawnBehavior),
       validatePath cfg norm sp = Except.ok v → fsGet fs v = some c →
       resolveWorkDir cfg norm cwd (dirname v) = Except.ok wd →
       ∃ r, runPowerShellScript cfg norm ambient sp args t cwd fs spawner = Except.ok r) ∧
    (∀ (cfg : Config) (norm : String → String) (ambient : List (String × String))
       (code : String) (t : Nat) (cwd : Option String) (env : List (String × String))
       (fs : FS) (now : Nat) (rand : String) (spawner : SpawnCall → SpawnBehavior),
       jsBlank code = true →
       runPythonCode cfg norm ambient code t cwd env fs now rand spawner =
         (Except.error (DsError.err "Code cannot be empty"), fs)) := by
  refine ⟨?_, ?_, ?_, ?_, ?_, ?_⟩
  · intro cfg norm ambient homedir cmd t cwd wd spawner hcmd hwd
    rw [runPowerShell_eq_checked cfg norm ambient homedir cmd t cwd spawner hcmd,
      runPowerShellChecked_eq cfg norm ambient homedir cmd t cwd spawner wd hwd]
    exact ⟨_, rfl⟩
  · intro cfg norm ambient homedir cmd t cwd wd msg outBuf errBuf tm hcmd hwd
    rw [runPowerShell_eq_checked cfg norm ambient homedir cmd t cwd _ hcmd,
      runPowerShellChecked_eq cfg norm ambient homedir cmd t cwd _ wd hwd]
    rfl
  · intro cfg norm ambient homedir cmd t cwd spawner hcmd
    unfold runPowerShell
    rw [hcmd]
    rfl
  · intro cfg norm ambient sp args cwd t env fs v c wd spawner hv hex hwd
    rw [runPythonScript_eq_validated cfg norm ambient sp args cwd t env fs spawner v hv,
      runPythonScriptValidated_eq_checked cfg norm ambient v args cwd t env fs spawner c hex,
      runPythonScriptChecked_eq cfg norm ambient v args cwd t env spawner wd hwd]
    exact ⟨_, rfl⟩
  · intro cfg norm ambient sp args t cwd fs v c wd spawner hv hex hwd
    rw [runPowerShellScript_eq_validated cfg norm ambient sp args t cwd fs spawner v hv,
      runPowerShellScriptValidated_eq_checked cfg norm ambient v args t cwd fs spawner c hex,
      runPowerShellScriptChecked_eq cfg norm ambient v args t cwd spawner wd hwd]
    exact ⟨_, rfl⟩
  · intro cfg norm ambient code t cwd env fs now rand spawner hcode
    unfold runPythonCode
    rw [hcode]
    rfl

/-- Witness for C6: each conjunct instantiated at a concrete request. -/
theorem process_failures_encoded_witness :
    (∃ r, runPowerShell defaultConfig id [] "/home/u" "dir" 500 none
        (fun _ => SpawnBehavior.spawnErr "spawn powershell.exe ENOENT" "" "" 3) =
      Except.ok r) ∧
    runPowerShell defaultConfig id [] "/home/u" "dir" 500 none
        (fun _ => SpawnBehavior.spawnErr "spawn powershell.exe ENOENT" "" "" 3) =
      Except.ok { success := false, exit_code := some (-1), stdout := "", stderr := "",
                  duration_ms := 3, error := some "spawn powershell.exe ENOENT",
                  working_directory := "/home/u" } ∧
    runPowerShell defaultConfig id [] "/home/u" "  " 500 none
        (fun _ => SpawnBehavior.proc 1 1 (some 0) "" "" "" "") =
      Except.error (DsError.err "Command cannot be empty") ∧
    (∃ r, runPythonScript defaultConfig id [] "/tmp/s.py" [] none 500 [] [("/tmp/s.py", "x")]
        (fun _ => SpawnBehavior.spawnErr "spawn python ENOENT" "" "" 2) = Except.ok r) ∧
    (∃ r, runPowerShellScript defaultConfig id [] "/tmp/s.ps1" [] 500 none [("/tmp/s.ps1", "x")]
        (fun _ => SpawnBehavior.spawnErr "e" "" "" 2) = Except.ok r) ∧
    runPythonCode defaultConfig id [] "" 500 none [] [] 1 "r"
        (fun _ => SpawnBehavior.proc 1 1 (some 0) "" "" "" "") =
      (Except.error (DsError.err "Code cannot be empty"), []) := by
  have h := process_failures_encoded
  exact ⟨h.1 defaultConfig id [] "/home/u" "dir" 500 none "/home/u" _ (by rfl) (by rfl),
    h.2.1 defaultConfig id [] "/home/u" "dir" 500 none "/home/u"
      "spawn powershell.exe ENOENT" "" "" 3 (by rfl) (by rfl),
    h.2.2.1 defaultConfig id [] "/home/u" "  " 500 none _ (by rfl),
    h.2.2.2.1 defaultConfig id [] "/tmp/s.py" [] none 500 [] [("/tmp/s.py", "x")]
      "/tmp/s.py" "x" "/tmp" _ (by rfl) (by rfl) (by rfl),
    h.2.2.2.2.1 defaultConfig id [] "/tmp/s.ps1" [] 500 none [("/tmp/s.ps1", "x")]
      "/tmp/s.ps1" "x" "/tmp" _ (by rfl) (by rfl) (by rfl),
    h.2.2.2.2.2 defaultConfig id [] "" 500 none [] [] 1 "r" _ (by rfl)⟩

/-! ## checkPythonSyntax (lines 462-531) -/

/-- JavaScript truthiness of an optional string argument: present and
non-empty. -/
def optTruthy (o : Option String) : Bool :=
  match o with
  | some s => !(s == "")
  | none => false

/-- JavaScript String.includes. -/
def jsIncludes (s sub : String) : Bool := 1 < (s.splitOn sub).length

/-- JavaScript parseInt(s, 10) on the interpreter's verdict fields:
leading decimal digits, none meaning NaN. -/
def jsParseInt (s : String) : Option Nat :=
  let ds := s.data.takeWhile Char.isDigit
  if ds.isEmpty then none
  else some (ds.foldl (fun n c => n * 10 + (c.toNat - 48)) 0)

/-- The three shapes of the checkPythonSyntax result object: valid, a
parsed SYNTAX_ERROR verdict, or a raw error list (including the
script-not-found case). -/
inductive SyntaxResult where
  | okValid (message : String) (srcTag : String)
  | invalidParse (lineNumber offset : Option Nat) (errMsg : String) (srcTag : String)
  | invalidErrors (errors : List String) (srcTag : String)
deriving Repr, DecidableEq

/-- The `valid` field of the result object. -/
def SyntaxResult.validFlag : SyntaxResult → Bool
  | SyntaxResult.okValid _ _ => true
  | _ => false

/-- The Python triple quote, written with coded quote characters. -/
def tripleQuote : String := "\x27\x27\x27"

/-- The driver snippet of lines 486-494 asking the interpreter to parse
(not run) the code and print a machine-readable verdict; backslashes and
triple quotes in the checked code are escaped first.  Brace and quote
characters of the template are written as character codes. -/
def syntaxDriver (codeToCheck : String) : String :=
  "\nimport sys\nimport ast\ntry:\n    ast.parse(" ++ tripleQuote
    ++ ((codeToCheck.replace "\\" "\\\\").replace tripleQuote "\\\x27\\\x27\\\x27")
    ++ tripleQuote
    ++ ")\n    print(\x27SYNTAX_OK\x27)\nexcept SyntaxError as e:\n    print(f\x27SYNTAX_ERROR:\x7be.lineno\x7d:\x7be.offset\x7d:\x7be.msg\x7d\x27)\n"

/-- The execution half of checkPythonSyntax (lines 496-530): stage the
driver in the scratch directory, run it with the fixed 5000ms timeout,
delete the staged file (the finally of lines 526-530), and parse the
verdict. -/
def syntaxRun (cfg : Config) (norm : String → String) (ambient : List (String × String))
    (codeToCheck srcTag : String) (fs : FS) (now : Nat)
    (spawner : SpawnCall → SpawnBehavior) : Except DsError SyntaxResult × FS :=
  let checkCode := syntaxDriver codeToCheck
  let tempFile := tmpdir ++ "/syntax_check_" ++ toString now ++ ".py"
  let fs1 := fsSet fs tempFile checkCode
  let res := runPythonScript cfg norm ambient tempFile [] (some tmpdir) 5000 [] fs1 spawner
  let fs2 := fsDel fs1 tempFile
  ((match res with
    | Except.error e => Except.error e
    | Except.ok r =>
      if jsIncludes r.stdout "SYNTAX_OK" then
        Except.ok (SyntaxResult.okValid "Syntax is valid" srcTag)
      else if jsIncludes r.stdout "SYNTAX_ERROR:" then
        let parts := (((r.stdout.splitOn "SYNTAX_ERROR:").getD 1 "").trim).splitOn ":"
        Except.ok (SyntaxResult.invalidParse (jsParseInt (parts.getD 0 ""))
          (jsParseInt (parts.getD 1 "")) (String.intercalate ":" (parts.drop 2)) srcTag)
      else
        Except.ok (SyntaxResult.invalidErrors
          [if r.stderr == "" then "Unknown syntax check error" else r.stderr] srcTag)), fs2)

/-- checkPythonSyntax (lines 462-531): mutual-exclusion contract checks
first; with a script path, validate it and return a structured
valid=false result when the script does not exist, otherwise read it and
run the driver; with inline code, run the driver directly. -/
def checkPythonSyntaxFn (cfg : Config) (norm : String → String)
    (ambient : List (String × String)) (code scriptPath : Option String) (fs : FS)
    (now : Nat) (spawner : SpawnCall → SpawnBehavior) :
    Except DsError SyntaxResult × FS :=
  if !(optTruthy code) && !(optTruthy scriptPath) then
    (Except.error (DsError.err "Either code or script_path must be provided"), fs)
  else if optTruthy code && optTruthy scriptPath then
    (Except.error (DsError.err "Provide either code or script_path, not both"), fs)
  else if optTruthy scriptPath then
    match validatePath cfg norm (scriptPath.getD "") with
    | Except.error e => (Except.error e, fs)
    | Except.ok validated =>
      match fsGet fs validated with
      | none =>
        (Except.ok (SyntaxResult.invalidErrors ["Script not found: " ++ validated] "file"), fs)
      | some content => syntaxRun cfg norm ambient content "file" fs now spawner
  else
    syntaxRun cfg norm ambient (code.getD "") "code" fs now spawner

/-- C10: with a script_path whose validated path does not exist,
checkPythonSyntax returns a structured result with valid=false and an
errors list naming the missing script, while runPythonScript and
runPowerShellScript on the same path throw a Script-not-found error
before manufacturing any process (the result is an Except.error
independent of the spawner). -/
theorem syntax_check_missing_script_structured (cfg : Config) (norm : String → String)
    (ambient : List (String × String)) (sp : String) (fs : FS) (now : Nat)
    (spawner : SpawnCall → SpawnBehavior) (v : String)
    (hsp : (sp == "") = false)
    (hv : validatePath cfg norm sp = Except.ok v)
    (hne : fsGet fs v = none) :
    checkPythonSyntaxFn cfg norm ambient none (some sp) fs now spawner =
      (Except.ok (SyntaxResult.invalidErrors ["Script not found: " ++ v] "file"), fs) ∧
    (SyntaxResult.invalidErrors ["Script not found: " ++ v] "file").validFlag = false ∧
    (∀ (args : List String) (cwd : Option String) (t : Nat)
       (env : List (String × String)) (spawner2 : SpawnCall → SpawnBehavior),
       runPythonScript cfg norm ambient sp args cwd t env fs spawner2 =
         Except.error (DsError.err ("Script not found: " ++ v))) ∧
    (∀ (args : List String) (t : Nat) (cwd : Option String)
       (spawner2 : SpawnCall → SpawnBehavior),
       runPowerShellScript cfg norm ambient sp args t cwd fs spawner2 =
         Except.error (DsError.err ("Script not found: " ++ v))) := by
  refine ⟨?_, rfl, ?_, ?_⟩
  · unfold checkPythonSyntaxFn optTruthy
    simp only [hsp, Bool.not_false, Bool.not_true, Bool.and_false, Bool.false_and,
      Bool.and_true, Bool.true_and, if_false, if_true, Option.getD]
    rw [hv]
    simp only [hne]
    rfl
  · intro args cwd t env spawner2
    rw [runPythonScript_eq_validated cfg norm ambient sp args cwd t env fs spawner2 v hv]
    unfold runPythonScriptValidated
    rw [hne]
  · intro args t cwd spawner2
    rw [runPowerShellScript_eq_validated cfg norm ambient sp args t cwd fs spawner2 v hv]
    unfold runPowerShellScriptValidated
    rw [hne]

/-- Witness for C10 at a concrete missing script, including concrete
instances of the script runners throwing. -/
theorem syntax_check_missing_script_witness :
    checkPythonSyntaxFn defaultConfig id [] none (some "/tmp/missing.py") [] 9
        (fun _ => SpawnBehavior.proc 1 1 (some 0) "" "" "" "") =
      (Except.ok (SyntaxResult.invalidErrors ["Script not found: " ++ "/tmp/missing.py"] "file"),
        []) ∧
    (SyntaxResult.invalidErrors ["Script not found: " ++ "/tmp/missing.py"] "file").validFlag
      = false ∧
    runPythonScript defaultConfig id [] "/tmp/missing.py" [] none 500 [] []
        (fun _ => SpawnBehavior.proc 1 1 (some 0) "" "" "" "") =
      Except.error (DsError.err ("Script not found: " ++ "/tmp/missing.py")) ∧
    runPowerShellScript defaultConfig id [] "/tmp/missing.py" [] 500 none []
        (fun _ => SpawnBehavior.proc 1 1 (some 0) "" "" "" "") =
      Except.error (DsError.err ("Script not found: " ++ "/tmp/missing.py")) := by
  have h := syntax_check_missing_script_structured defaultConfig id [] "/tmp/missing.py" [] 9
    (fun _ => SpawnBehavior.proc 1 1 (some 0) "" "" "" "") "/tmp/missing.py"
    (by rfl) (by rfl) (by rfl)
  exact ⟨h.1, h.2.1,
    h.2.2.1 [] none 500 [] (fun _ => SpawnBehavior.proc 1 1 (some 0) "" "" "" ""),
    h.2.2.2 [] 500 none (fun _ => SpawnBehavior.proc 1 1 (some 0) "" "" "" "")⟩
